import Mathlib

/-!
Shallow embedding of `ldap-client.go` (package `ldap`, `LDAPClient`).

The directory-protocol collaborator (`gopkg.in/ldap.v2`: `Dial`, `DialTLS`,
`StartTLS`, `Conn.Bind`, `Conn.Search`, `Conn.Close`, `Entry.GetAttributeValue`)
is modelled as an environment `Env` of call outcomes; an instrumentation
record `Trace` counts dials, search calls and bind calls and logs the
`time.Sleep` durations (in seconds) and the `(dn, password)` pairs passed to
`Bind`.  Go `error` values are modelled as `String` (the message of
`errors.New`, or the collaborator's error); a fallible call returns
`Except String α`.  Go `map[string]string` results are modelled as
association lists keyed in the order of `lc.Attributes`.
-/

namespace LdapClient

/-- An LDAP entry as exposed by the collaborator: a distinguished name and a
list of named, possibly multi-valued attributes (`ldap.Entry`). -/
structure Entry where
  dn : String
  attributes : List (String × List String)
deriving Repr, DecidableEq

/-- Model of `Entry.GetAttributeValue`: the first string value of the named attribute,
or the empty string when the attribute is absent or has no values. -/
def Entry.getAttributeValue (e : Entry) (a : String) : String :=
  match e.attributes.find? (fun p => p.1 == a) with
  | some (_, v :: _) => v
  | _ => ""

/-- Model of `ldap.SearchResult`: the list of matching entries. -/
structure SearchResult where
  entries : List Entry
deriving Repr, DecidableEq

/-- The `ldap.NewSearchRequest` argument bundle as built by this client:
base DN, scope `WholeSubtree`, deref `NeverDerefAliases`, size limit 0,
time limit 0, typesOnly false, the formatted filter, and the requested
attribute names. -/
structure SearchRequest where
  baseDN : String
  scope : Nat
  derefAliases : Nat
  sizeLimit : Nat
  timeLimit : Nat
  typesOnly : Bool
  filter : String
  attributes : List String
deriving Repr, DecidableEq

/-- Constant `ldap.ScopeWholeSubtree` (= 2 in the collaborator). -/
def scopeWholeSubtree : Nat := 2

/-- Constant `ldap.NeverDerefAliases` (= 0 in the collaborator). -/
def neverDerefAliases : Nat := 0

/-- The state of one `ldap.Conn` object.  `Conn.Close` marks the underlying
connection closed but the Go pointer held by the client remains valid. -/
structure Conn where
  closed : Bool
deriving Repr, DecidableEq

/-- The `LDAPClient` struct: configuration plus the lazily created session
pointer `Conn` (`none` models the nil pointer). -/
structure LDAPClient where
  conn : Option Conn
  host : String
  port : Nat
  useSSL : Bool
  bindDN : String
  bindPassword : String
  groupFilter : String
  userFilter : String
  base : String
  attributes : List String
  serverName : String
deriving Repr, DecidableEq

/-- Outcomes of collaborator calls.  `search` is indexed by the request and
by the ordinal of the search call (0-based, counted in the trace), so a
transiently failing collaborator is a function that errs on the first
indices; `bind` is likewise indexed by the ordinal of the bind call. -/
structure Env where
  dialResult : Except String Unit
  startTLSResult : Except String Unit
  dialTLSResult : Except String Unit
  bindResult : Nat → String → String → Except String Unit
  searchResult : SearchRequest → Nat → Except String SearchResult

/-- Instrumentation: dial count, search-call count, bind-call count, sleep
durations in seconds (in order), and the `(dn, password)` arguments of each
`Bind` call (in order). -/
structure Trace where
  dials : Nat
  searchCalls : Nat
  bindCalls : Nat
  sleeps : List Nat
  binds : List (String × String)
deriving Repr, DecidableEq

/-- The empty trace at the start of an observed call. -/
def tr0 : Trace := ⟨0, 0, 0, [], []⟩

/-- Helper for `fmt.Sprintf` on a template containing `%s` verbs: each `%s` is replaced,
left to right, by the single argument (the client's filter templates contain
exactly one `%s`, so only the first replacement ever fires with a real
argument; we model the one-argument call by replacing the first `%s`). -/
def sprintf1Aux : List Char → String → String
  | [], _ => ""
  | '%' :: 's' :: rest, arg => arg ++ String.mk rest
  | c :: rest, arg => String.mk [c] ++ sprintf1Aux rest arg

/-- Model of `fmt.Sprintf(template, arg)` for a template with one `%s` verb. -/
def sprintf1 (template arg : String) : String :=
  sprintf1Aux template.data arg

/-- One `lc.Conn.Search(req)` call: the outcome is read from the environment
at the current search ordinal and the ordinal is advanced. -/
def connSearch (env : Env) (req : SearchRequest) (tr : Trace) :
    Except String SearchResult × Trace :=
  (env.searchResult req tr.searchCalls,
   { tr with searchCalls := tr.searchCalls + 1 })

/-- One `lc.Conn.Bind(dn, password)` call: outcome read from the environment
at the current bind ordinal; the call is logged and the ordinal advanced. -/
def connBind (env : Env) (dn password : String) (tr : Trace) :
    Except String Unit × Trace :=
  (env.bindResult tr.bindCalls dn password,
   { tr with bindCalls := tr.bindCalls + 1,
             binds := tr.binds ++ [(dn, password)] })

/-- The retry loop shared by `SearchUser`, `GetGroupsOfUser` and `FindUsers`:

```
retry := 3
for err != nil && retry <= 3 {
  sr, err = lc.Conn.Search(searchRequest)
  log.Printf(...)
  time.Sleep(time.Second * time.Duration(retry))
  retry++
}
```

`cur` is the running `(sr, err)` pair, `retry` the loop variable.  `fuel`
is a structural bound on the number of iterations only: the loop guard
`err != nil && retry <= 3` is checked exactly as in the source, and since
`retry` starts at 3 and increments, the guard admits at most one iteration,
so any `fuel ≥ 1` makes `fuel` never the reason the loop stops (the entry
point below passes 4). -/
def searchRetryLoop (env : Env) (req : SearchRequest) :
    Nat → Except String SearchResult → Nat → Trace →
    Except String SearchResult × Trace
  | fuel, cur, retry, tr =>
    if cur.isOk || decide (retry > 3) then (cur, tr)
    else
      match fuel with
      | 0 => (cur, tr)
      | fuel + 1 =>
        let s := connSearch env req tr
        let tr2 := { s.2 with sleeps := s.2.sleeps ++ [retry] }
        searchRetryLoop env req fuel s.1 (retry + 1) tr2

/-- The initial search followed by the retry loop, exactly as each of the
three query operations performs it. -/
def searchWithRetry (env : Env) (req : SearchRequest) (tr : Trace) :
    Except String SearchResult × Trace :=
  let s := connSearch env req tr
  searchRetryLoop env req 4 s.1 3 s.2

/-- Model of `Connect`: no-op when `lc.Conn != nil`; otherwise dial (plaintext followed
by `StartTLS` with `InsecureSkipVerify: true` when `!lc.UseSSL`, or `DialTLS`
with server-name verification when `lc.UseSSL`) and store the new session. -/
def connect (env : Env) (lc : LDAPClient) (tr : Trace) :
    Except String Unit × LDAPClient × Trace :=
  match lc.conn with
  | some _ => (Except.ok (), lc, tr)
  | none =>
    if !lc.useSSL then
      let tr1 := { tr with dials := tr.dials + 1 }
      match env.dialResult with
      | Except.error e => (Except.error e, lc, tr1)
      | Except.ok _ =>
        match env.startTLSResult with
        | Except.error e => (Except.error e, lc, tr1)
        | Except.ok _ =>
          (Except.ok (), { lc with conn := some ⟨false⟩ }, tr1)
    else
      let tr1 := { tr with dials := tr.dials + 1 }
      match env.dialTLSResult with
      | Except.error e => (Except.error e, lc, tr1)
      | Except.ok _ =>
        (Except.ok (), { lc with conn := some ⟨false⟩ }, tr1)

/-- Model of `Close`: `if lc.Conn != nil { lc.Conn.Close() }`.  The underlying
connection is closed; the client's `Conn` field itself is not reset. -/
def close (lc : LDAPClient) : LDAPClient :=
  match lc.conn with
  | some c => { lc with conn := some { c with closed := true } }
  | none => lc

/-- The search request built by `SearchUser` and `FindUsers`: user filter
formatted with the search term, the configured attribute set. -/
def userSearchRequest (lc : LDAPClient) (username : String) : SearchRequest :=
  ⟨lc.base, scopeWholeSubtree, neverDerefAliases, 0, 0, false,
   sprintf1 lc.userFilter username, lc.attributes⟩

/-- The search request built by `GetGroupsOfUser`: group filter formatted
with the username, attributes fixed to `["cn"]`. -/
def groupSearchRequest (lc : LDAPClient) (username : String) : SearchRequest :=
  ⟨lc.base, scopeWholeSubtree, neverDerefAliases, 0, 0, false,
   sprintf1 lc.groupFilter username, ["cn"]⟩

/-- The search request built by `Authenticate`: user filter, configured
attributes with `"dn"` appended (`append(lc.Attributes, "dn")`). -/
def authSearchRequest (lc : LDAPClient) (username : String) : SearchRequest :=
  ⟨lc.base, scopeWholeSubtree, neverDerefAliases, 0, 0, false,
   sprintf1 lc.userFilter username, lc.attributes ++ ["dn"]⟩

/-- The Go map `map[string]string` built from one entry over the configured
attribute set: `user[attr] = entry.GetAttributeValue(attr)`. -/
def userMap (lc : LDAPClient) (e : Entry) : List (String × String) :=
  lc.attributes.map (fun a => (a, e.getAttributeValue a))

/-- Error of `errors.New("User does not exist")`. -/
def userDoesNotExistError : String := "User does not exist"

/-- Error of `errors.New("Too many entries returned")`. -/
def tooManyEntriesError : String := "Too many entries returned"

/-- Model of `SearchUser`: connect, search with the retry loop, then require exactly
one entry and return its attribute map. -/
def searchUser (env : Env) (lc : LDAPClient) (username : String) (tr : Trace) :
    Except String (List (String × String)) × LDAPClient × Trace :=
  match connect env lc tr with
  | (Except.error e, lc1, tr1) => (Except.error e, lc1, tr1)
  | (Except.ok _, lc1, tr1) =>
    let req := userSearchRequest lc1 username
    match searchWithRetry env req tr1 with
    | (Except.error e, tr2) => (Except.error e, lc1, tr2)
    | (Except.ok sr, tr2) =>
      if sr.entries.length < 1 then
        (Except.error userDoesNotExistError, lc1, tr2)
      else if sr.entries.length > 1 then
        (Except.error tooManyEntriesError, lc1, tr2)
      else
        match sr.entries with
        | e0 :: _ => (Except.ok (userMap lc1 e0), lc1, tr2)
        | [] => (Except.error userDoesNotExistError, lc1, tr2)

/-- The guard `lc.BindDN != "" && lc.BindPassword != ""` used twice in
`Authenticate`. -/
def privConfigured (lc : LDAPClient) : Bool :=
  lc.bindDN != "" && lc.bindPassword != ""

/-- Model of `Authenticate`: connect; optional privileged bind; single search (no
retry loop); exactly-one-entry checks; credential bind as the resolved DN;
optional privileged rebind.  Result models Go's
`(bool, map[string]string, error)` with the nil map as `none` and the nil
error as `none`. -/
def authenticate (env : Env) (lc : LDAPClient) (username password : String)
    (tr : Trace) :
    (Bool × Option (List (String × String)) × Option String) ×
      LDAPClient × Trace :=
  match connect env lc tr with
  | (Except.error e, lc1, tr1) => ((false, none, some e), lc1, tr1)
  | (Except.ok _, lc1, tr1) =>
    let afterPriv : Except String Unit × Trace :=
      if privConfigured lc1 then
        connBind env lc1.bindDN lc1.bindPassword tr1
      else
        (Except.ok (), tr1)
    match afterPriv with
    | (Except.error e, tr2) => ((false, none, some e), lc1, tr2)
    | (Except.ok _, tr2) =>
      let req := authSearchRequest lc1 username
      match connSearch env req tr2 with
      | (Except.error e, tr3) => ((false, none, some e), lc1, tr3)
      | (Except.ok sr, tr3) =>
        if sr.entries.length < 1 then
          ((false, none, some userDoesNotExistError), lc1, tr3)
        else if sr.entries.length > 1 then
          ((false, none, some tooManyEntriesError), lc1, tr3)
        else
          match sr.entries with
          | [] => ((false, none, some userDoesNotExistError), lc1, tr3)
          | e0 :: _ =>
            let userDN := e0.dn
            let user := userMap lc1 e0
            match connBind env userDN password tr3 with
            | (Except.error e, tr4) => ((false, some user, some e), lc1, tr4)
            | (Except.ok _, tr4) =>
              if privConfigured lc1 then
                match connBind env lc1.bindDN lc1.bindPassword tr4 with
                | (Except.error e, tr5) =>
                  ((true, some user, some e), lc1, tr5)
                | (Except.ok _, tr5) => ((true, some user, none), lc1, tr5)
              else
                ((true, some user, none), lc1, tr4)

/-- Model of `GetGroupsOfUser`: connect, group search with the retry loop, then
collect the `"cn"` value of every entry (zero entries give the empty list
with no error). -/
def getGroupsOfUser (env : Env) (lc : LDAPClient) (username : String)
    (tr : Trace) : Except String (List String) × LDAPClient × Trace :=
  match connect env lc tr with
  | (Except.error e, lc1, tr1) => (Except.error e, lc1, tr1)
  | (Except.ok _, lc1, tr1) =>
    let req := groupSearchRequest lc1 username
    match searchWithRetry env req tr1 with
    | (Except.error e, tr2) => (Except.error e, lc1, tr2)
    | (Except.ok sr, tr2) =>
      (Except.ok (sr.entries.map (fun e => e.getAttributeValue "cn")),
       lc1, tr2)

/-- Model of `FindUsers`: connect, user search with the retry loop, `NotFound` on zero
entries, otherwise every entry's attribute map (no ambiguity check). -/
def findUsers (env : Env) (lc : LDAPClient) (search : String) (tr : Trace) :
    Except String (List (List (String × String))) × LDAPClient × Trace :=
  match connect env lc tr with
  | (Except.error e, lc1, tr1) => (Except.error e, lc1, tr1)
  | (Except.ok _, lc1, tr1) =>
    let req := userSearchRequest lc1 search
    match searchWithRetry env req tr1 with
    | (Except.error e, tr2) => (Except.error e, lc1, tr2)
    | (Except.ok sr, tr2) =>
      if sr.entries.length < 1 then
        (Except.error userDoesNotExistError, lc1, tr2)
      else
        (Except.ok (sr.entries.map (fun e => userMap lc1 e)), lc1, tr2)

/-! Concrete sample inputs used by counterexamples and witnesses. -/

/-- A directory entry for user alice. -/
def aliceEntry : Entry :=
  ⟨"uid=alice,dc=example,dc=com",
   [("cn", ["Alice A"]), ("mail", ["alice@example.com"])]⟩

/-- A directory entry for user bob. -/
def bobEntry : Entry :=
  ⟨"uid=bob,dc=example,dc=com", [("cn", ["Bob B"])]⟩

/-- A client with an established session and no privileged bind credentials. -/
def sampleClient : LDAPClient :=
  ⟨some ⟨false⟩, "ldap.example.com", 389, false, "", "",
   "(memberUid=%s)", "(uid=%s)", "dc=example,dc=com", ["cn", "mail"], ""⟩

/-- The sample client with privileged bind credentials configured. -/
def privClient : LDAPClient :=
  { sampleClient with bindDN := "cn=admin,dc=example,dc=com",
                      bindPassword := "secret" }

/-- The sample client before any session is established. -/
def unconnectedClient : LDAPClient := { sampleClient with conn := none }

/-- An environment in which every collaborator call succeeds and every search
returns exactly the alice entry. -/
def plainEnv : Env :=
  ⟨Except.ok (), Except.ok (), Except.ok (),
   fun _ _ _ => Except.ok (),
   fun _ _ => Except.ok ⟨[aliceEntry]⟩⟩

/-- A search collaborator that fails on the first two search calls and
succeeds from the third on. -/
def flakyEnv : Env :=
  { plainEnv with searchResult := fun _ n =>
      if n = 0 then Except.error "transient failure 1"
      else if n = 1 then Except.error "transient failure 2"
      else Except.ok ⟨[aliceEntry]⟩ }

/-- An environment whose searches return zero entries. -/
def emptyEnv : Env :=
  { plainEnv with searchResult := fun _ _ => Except.ok ⟨[]⟩ }

/-- An environment whose searches return two entries. -/
def twoEnv : Env :=
  { plainEnv with searchResult := fun _ _ => Except.ok ⟨[aliceEntry, bobEntry]⟩ }

/-- An environment in which binding as alice fails (wrong password) while
every other bind succeeds. -/
def wrongPasswordEnv : Env :=
  { plainEnv with bindResult := fun _ dn _ =>
      if dn = aliceEntry.dn then Except.error "Invalid Credentials"
      else Except.ok () }

/-- An environment in which the third bind call (the privileged rebind)
fails while everything else succeeds. -/
def rebindFailEnv : Env :=
  { plainEnv with bindResult := fun n _ _ =>
      if n = 2 then Except.error "rebind refused" else Except.ok () }

/-- C1: the spec claims up to 3 retries with 1s/2s/3s backoff and success on
the third attempt when the collaborator fails twice then succeeds.  The code
initialises `retry := 3` against the loop bound `retry <= 3`, so each of
`SearchUser`, `GetGroupsOfUser` and `FindUsers` performs exactly one retry,
sleeps 3 seconds after it, and surfaces the second error even though a third
attempt would have succeeded. -/
theorem retry_loop_single_retry_code_bug :
    searchUser flakyEnv sampleClient "alice" tr0 =
      (Except.error "transient failure 2", sampleClient,
       { tr0 with searchCalls := 2, sleeps := [3] }) ∧
    getGroupsOfUser flakyEnv sampleClient "alice" tr0 =
      (Except.error "transient failure 2", sampleClient,
       { tr0 with searchCalls := 2, sleeps := [3] }) ∧
    findUsers flakyEnv sampleClient "alice" tr0 =
      (Except.error "transient failure 2", sampleClient,
       { tr0 with searchCalls := 2, sleeps := [3] }) :=
  ⟨rfl, rfl, rfl⟩

/-- C2 counterexample: connect, then close, then connect again on a concrete
client.  After `close` the session pointer is still set (the client is not
in the Unconnected state) and the second `connect` performs no new dial, so
the total dial count stays at 1. -/
theorem close_then_connect_counterexample :
    (connect plainEnv unconnectedClient tr0).2.1.conn ≠ none ∧
    (close (connect plainEnv unconnectedClient tr0).2.1).conn ≠ none ∧
    (connect plainEnv
        (close (connect plainEnv unconnectedClient tr0).2.1)
        (connect plainEnv unconnectedClient tr0).2.2).2.2.dials = 1 := by
  refine ⟨?_, ?_, rfl⟩ <;> intro h <;> simp [connect, close, plainEnv,
    unconnectedClient, sampleClient] at h

/-- C2 amended: `Close` closes the underlying connection but leaves the
client's session pointer set, so the client never returns to the Unconnected
state and a subsequent `Connect` is a no-op that performs no new dial. -/
theorem close_keeps_session_pointer (env : Env) (lc : LDAPClient) (c : Conn)
    (tr : Trace) (h : lc.conn = some c) :
    (close lc).conn = some ⟨true⟩ ∧
    connect env (close lc) tr = (Except.ok (), close lc, tr) := by
  simp [close, connect, h]

/-- Witness for C2 amended at the concrete connected sample client. -/
theorem close_keeps_session_pointer_witness :
    (close sampleClient).conn = some ⟨true⟩ ∧
    connect plainEnv (close sampleClient) tr0 =
      (Except.ok (), close sampleClient, tr0) :=
  close_keeps_session_pointer plainEnv sampleClient ⟨false⟩ tr0 rfl

/-- C3: with a live session and a search that resolves to exactly one entry,
`SearchUser` returns without error the mapping whose keys are exactly the
configured attribute names, each bound to that entry's single string value,
and any configured attribute absent from the entry is bound to the empty
string. -/
theorem searchUser_single_match (env : Env) (lc : LDAPClient) (c : Conn)
    (username : String) (e : Entry) (tr : Trace)
    (hconn : lc.conn = some c)
    (hsearch : env.searchResult (userSearchRequest lc username) tr.searchCalls
      = Except.ok ⟨[e]⟩) :
    (searchUser env lc username tr).1 = Except.ok (userMap lc e) ∧
    (userMap lc e).map Prod.fst = lc.attributes ∧
    ∀ a ∈ lc.attributes,
      (a, e.getAttributeValue a) ∈ userMap lc e ∧
      (e.attributes.find? (fun p => p.1 == a) = none →
        (a, "") ∈ userMap lc e) := by
  refine ⟨?_, ?_, ?_⟩
  · simp [searchUser, connect, hconn, searchWithRetry, connSearch, hsearch,
      searchRetryLoop, Except.isOk, Except.toBool]
  · simp [userMap, Function.comp_def]
  · intro a ha
    have hm : (a, e.getAttributeValue a) ∈ userMap lc e :=
      List.mem_map.mpr ⟨a, ha, rfl⟩
    refine ⟨hm, fun hfind => ?_⟩
    have hempty : e.getAttributeValue a = "" := by
      simp [Entry.getAttributeValue, hfind]
    rw [← hempty]
    exact hm

/-- Witness for C3 at the concrete environment that returns the alice entry
once. -/
theorem searchUser_single_match_witness :
    (searchUser plainEnv sampleClient "alice" tr0).1 =
      Except.ok (userMap sampleClient aliceEntry) ∧
    (userMap sampleClient aliceEntry).map Prod.fst = sampleClient.attributes ∧
    ∀ a ∈ sampleClient.attributes,
      (a, aliceEntry.getAttributeValue a) ∈ userMap sampleClient aliceEntry ∧
      (aliceEntry.attributes.find? (fun p => p.1 == a) = none →
        (a, "") ∈ userMap sampleClient aliceEntry) :=
  searchUser_single_match plainEnv sampleClient ⟨false⟩ "alice" aliceEntry tr0
    rfl rfl

/-- C4: with a live session and searches that resolve to zero entries,
`SearchUser` and `FindUsers` fail with the NotFound error
`"User does not exist"`, while `GetGroupsOfUser` returns the empty list with
no error. -/
theorem zero_matches_behavior (env : Env) (lc : LDAPClient) (c : Conn)
    (username : String) (tr : Trace)
    (hconn : lc.conn = some c)
    (huser : env.searchResult (userSearchRequest lc username) tr.searchCalls
      = Except.ok ⟨[]⟩)
    (hgroup : env.searchResult (groupSearchRequest lc username) tr.searchCalls
      = Except.ok ⟨[]⟩) :
    (searchUser env lc username tr).1 = Except.error userDoesNotExistError ∧
    (findUsers env lc username tr).1 = Except.error userDoesNotExistError ∧
    (getGroupsOfUser env lc username tr).1 = Except.ok [] := by
  refine ⟨?_, ?_, ?_⟩
  · simp [searchUser, connect, hconn, searchWithRetry, connSearch, huser,
      searchRetryLoop, Except.isOk, Except.toBool]
  · simp [findUsers, connect, hconn, searchWithRetry, connSearch, huser,
      searchRetryLoop, Except.isOk, Except.toBool]
  · simp [getGroupsOfUser, connect, hconn, searchWithRetry, connSearch,
      hgroup, searchRetryLoop, Except.isOk, Except.toBool]

/-- Witness for C4 at the concrete environment whose searches return zero
entries. -/
theorem zero_matches_behavior_witness :
    (searchUser emptyEnv sampleClient "alice" tr0).1 =
      Except.error userDoesNotExistError ∧
    (findUsers emptyEnv sampleClient "alice" tr0).1 =
      Except.error userDoesNotExistError ∧
    (getGroupsOfUser emptyEnv sampleClient "alice" tr0).1 = Except.ok [] :=
  zero_matches_behavior emptyEnv sampleClient ⟨false⟩ "alice" tr0 rfl rfl rfl

/-- C5: with a live session and a search that resolves to more than one
entry, `SearchUser` fails with the AmbiguousResult error
`"Too many entries returned"`, while `FindUsers` returns without error every
matching entry as an independent attribute mapping over the configured
attribute set. -/
theorem multiple_matches_behavior (env : Env) (lc : LDAPClient) (c : Conn)
    (username : String) (e1 e2 : Entry) (rest : List Entry) (tr : Trace)
    (hconn : lc.conn = some c)
    (hsearch : env.searchResult (userSearchRequest lc username) tr.searchCalls
      = Except.ok ⟨e1 :: e2 :: rest⟩) :
    (searchUser env lc username tr).1 = Except.error tooManyEntriesError ∧
    (findUsers env lc username tr).1 =
      Except.ok ((e1 :: e2 :: rest).map (fun e => userMap lc e)) := by
  constructor
  · simp [searchUser, connect, hconn, searchWithRetry, connSearch, hsearch,
      searchRetryLoop, Except.isOk, Except.toBool]
  · simp [findUsers, connect, hconn, searchWithRetry, connSearch, hsearch,
      searchRetryLoop, Except.isOk, Except.toBool]

/-- Witness for C5 at the concrete environment whose searches return the
alice and bob entries. -/
theorem multiple_matches_behavior_witness :
    (searchUser twoEnv sampleClient "ali*" tr0).1 =
      Except.error tooManyEntriesError ∧
    (findUsers twoEnv sampleClient "ali*" tr0).1 =
      Except.ok ([aliceEntry, bobEntry].map (fun e => userMap sampleClient e)) :=
  multiple_matches_behavior twoEnv sampleClient ⟨false⟩ "ali*" aliceEntry
    bobEntry [] tr0 rfl rfl

/-- C6: when `Authenticate` resolves exactly one user and the credential bind
with the supplied password fails, it returns `authenticated = false`, the
already-resolved user attributes and the bind error; with zero matching
entries it instead returns no attributes and the NotFound error, so the two
failures are distinguishable. -/
theorem authenticate_wrong_password (env env2 : Env) (lc : LDAPClient)
    (c : Conn) (username password be : String) (e : Entry)
    (hconn : lc.conn = some c)
    (hpriv : privConfigured lc = true →
      env.bindResult 0 lc.bindDN lc.bindPassword = Except.ok ())
    (hsearch : env.searchResult (authSearchRequest lc username) 0 =
      Except.ok ⟨[e]⟩)
    (hbind : env.bindResult (if privConfigured lc then 1 else 0) e.dn password
      = Except.error be)
    (hpriv2 : privConfigured lc = true →
      env2.bindResult 0 lc.bindDN lc.bindPassword = Except.ok ())
    (hsearch2 : env2.searchResult (authSearchRequest lc username) 0 =
      Except.ok ⟨[]⟩) :
    (authenticate env lc username password tr0).1 =
      (false, some (userMap lc e), some be) ∧
    (authenticate env2 lc username password tr0).1 =
      (false, none, some userDoesNotExistError) := by
  cases hp : privConfigured lc with
  | false =>
    simp [hp] at hbind
    constructor
    · simp [authenticate, connect, hconn, hp, connSearch, connBind, tr0,
        hsearch, hbind]
    · simp [authenticate, connect, hconn, hp, connSearch, connBind, tr0,
        hsearch2]
  | true =>
    simp [hp] at hbind
    have h0 := hpriv hp
    have h02 := hpriv2 hp
    constructor
    · simp [authenticate, connect, hconn, hp, connSearch, connBind, tr0,
        hsearch, hbind, h0]
    · simp [authenticate, connect, hconn, hp, connSearch, connBind, tr0,
        hsearch2, h02]

/-- Witness for C6: wrong password for alice versus a search with zero
matches. -/
theorem authenticate_wrong_password_witness :
    (authenticate wrongPasswordEnv sampleClient "alice" "badpw" tr0).1 =
      (false, some (userMap sampleClient aliceEntry),
       some "Invalid Credentials") ∧
    (authenticate emptyEnv sampleClient "alice" "badpw" tr0).1 =
      (false, none, some userDoesNotExistError) :=
  authenticate_wrong_password wrongPasswordEnv emptyEnv sampleClient ⟨false⟩
    "alice" "badpw" "Invalid Credentials" aliceEntry rfl (fun _ => rfl) rfl
    rfl (fun _ => rfl) rfl

/-- C7: when the credential bind succeeds, privileged credentials are
configured and the privileged rebind fails, `Authenticate` still returns
`authenticated = true` with the user attributes and surfaces the rebind
error. -/
theorem authenticate_rebind_failure (env : Env) (lc : LDAPClient) (c : Conn)
    (username password re : String) (e : Entry)
    (hconn : lc.conn = some c)
    (hp : privConfigured lc = true)
    (hbind0 : env.bindResult 0 lc.bindDN lc.bindPassword = Except.ok ())
    (hsearch : env.searchResult (authSearchRequest lc username) 0 =
      Except.ok ⟨[e]⟩)
    (hbind1 : env.bindResult 1 e.dn password = Except.ok ())
    (hbind2 : env.bindResult 2 lc.bindDN lc.bindPassword = Except.error re) :
    (authenticate env lc username password tr0).1 =
      (true, some (userMap lc e), some re) := by
  simp [authenticate, connect, hconn, hp, connSearch, connBind, tr0, hbind0,
    hsearch, hbind1, hbind2]

/-- Witness for C7: the privileged client against the environment whose
third bind call (the rebind) fails. -/
theorem authenticate_rebind_failure_witness :
    (authenticate rebindFailEnv privClient "alice" "pw" tr0).1 =
      (true, some (userMap privClient aliceEntry), some "rebind refused") :=
  authenticate_rebind_failure rebindFailEnv privClient ⟨false⟩ "alice" "pw"
    "rebind refused" aliceEntry rfl rfl rfl rfl rfl rfl

/-- C8 counterexample: a concrete fully successful authentication whose
returned record is exactly the configured-attribute mapping and mentions the
resolved distinguished name nowhere: there is no `"dn"` key and no value
equal to the DN, refuting the claim that the record contains the DN. -/
theorem authenticate_record_no_dn_counterexample :
    (authenticate plainEnv sampleClient "alice" "pw" tr0).1 =
      (true, some [("cn", "Alice A"), ("mail", "alice@example.com")], none) ∧
    (([("cn", "Alice A"), ("mail", "alice@example.com")] :
        List (String × String)).all
      (fun p => p.1 != "dn" && p.2 != aliceEntry.dn)) = true :=
  ⟨rfl, rfl⟩

/-- C8 amended: on successful authentication the search request carries the
configured attributes plus `"dn"` and the resolved DN is bound with the
supplied password, but the returned user record is exactly the mapping from
each configured attribute name to its single string value; the DN is not
part of the record. -/
theorem authenticate_success_record (env : Env) (lc : LDAPClient) (c : Conn)
    (username password : String) (e : Entry)
    (hconn : lc.conn = some c)
    (hpriv : privConfigured lc = true →
      env.bindResult 0 lc.bindDN lc.bindPassword = Except.ok ())
    (hsearch : env.searchResult (authSearchRequest lc username) 0 =
      Except.ok ⟨[e]⟩)
    (hbind : env.bindResult (if privConfigured lc then 1 else 0) e.dn password
      = Except.ok ())
    (hrebind : privConfigured lc = true →
      env.bindResult 2 lc.bindDN lc.bindPassword = Except.ok ()) :
    (authenticate env lc username password tr0).1 =
      (true, some (userMap lc e), none) ∧
    (authSearchRequest lc username).attributes = lc.attributes ++ ["dn"] ∧
    (userMap lc e).map Prod.fst = lc.attributes ∧
    (e.dn, password) ∈ (authenticate env lc username password tr0).2.2.binds := by
  cases hp : privConfigured lc with
  | false =>
    simp [hp] at hbind
    refine ⟨?_, rfl, ?_, ?_⟩
    · simp [authenticate, connect, hconn, hp, connSearch, connBind, tr0,
        hsearch, hbind]
    · simp [userMap, Function.comp_def]
    · simp [authenticate, connect, hconn, hp, connSearch, connBind, tr0,
        hsearch, hbind]
  | true =>
    simp [hp] at hbind
    have h0 := hpriv hp
    have h2 := hrebind hp
    refine ⟨?_, rfl, ?_, ?_⟩
    · simp [authenticate, connect, hconn, hp, connSearch, connBind, tr0,
        hsearch, hbind, h0, h2]
    · simp [userMap, Function.comp_def]
    · simp [authenticate, connect, hconn, hp, connSearch, connBind, tr0,
        hsearch, hbind, h0, h2]

/-- Witness for C8 amended at the plain environment and the unprivileged
sample client. -/
theorem authenticate_success_record_witness :
    (authenticate plainEnv sampleClient "alice" "pw" tr0).1 =
      (true, some (userMap sampleClient aliceEntry), none) ∧
    (authSearchRequest sampleClient "alice").attributes =
      sampleClient.attributes ++ ["dn"] ∧
    (userMap sampleClient aliceEntry).map Prod.fst =
      sampleClient.attributes ∧
    (aliceEntry.dn, "pw") ∈
      (authenticate plainEnv sampleClient "alice" "pw" tr0).2.2.binds :=
  authenticate_success_record plainEnv sampleClient ⟨false⟩ "alice" "pw"
    aliceEntry rfl (fun _ => rfl) rfl rfl (fun _ => rfl)

/-- C9: starting from an unconnected client, a succeeding `Connect` performs
exactly one dial, a second `Connect` immediately after is a no-op (same
client state, same trace, no further dial), and `Close` on the unconnected
client is a no-op that signals no error. -/
theorem connect_idempotent_close_noop (env : Env) (lc lc2 : LDAPClient)
    (tr tr2 : Trace)
    (hunconn : lc.conn = none)
    (hfirst : connect env lc tr = (Except.ok (), lc2, tr2)) :
    tr2.dials = tr.dials + 1 ∧
    connect env lc2 tr2 = (Except.ok (), lc2, tr2) ∧
    close lc = lc := by
  simp only [connect, hunconn] at hfirst
  by_cases hssl : lc.useSSL = true
  · simp only [hssl, Bool.not_true, Bool.false_eq_true, if_false] at hfirst
    cases hd : env.dialTLSResult with
    | error e => rw [hd] at hfirst; simp at hfirst
    | ok u =>
      rw [hd] at hfirst
      simp only [Prod.mk.injEq, true_and] at hfirst
      obtain ⟨h2, h3⟩ := hfirst
      subst h2; subst h3
      exact ⟨rfl, by simp [connect], by simp [close, hunconn]⟩
  · have hssl2 : lc.useSSL = false := by
      cases h : lc.useSSL
      · rfl
      · exact absurd h hssl
    simp only [hssl2, Bool.not_false, if_true] at hfirst
    cases hd : env.dialResult with
    | error e => rw [hd] at hfirst; simp at hfirst
    | ok u =>
      rw [hd] at hfirst
      cases hst : env.startTLSResult with
      | error e => rw [hst] at hfirst; simp at hfirst
      | ok v =>
        rw [hst] at hfirst
        simp only [Prod.mk.injEq, true_and] at hfirst
        obtain ⟨h2, h3⟩ := hfirst
        subst h2; subst h3
        exact ⟨rfl, by simp [connect], by simp [close, hunconn]⟩

/-- Witness for C9 at the concrete unconnected sample client. -/
theorem connect_idempotent_close_noop_witness :
    ({ tr0 with dials := 1 } : Trace).dials = tr0.dials + 1 ∧
    connect plainEnv { unconnectedClient with conn := some ⟨false⟩ }
        { tr0 with dials := 1 } =
      (Except.ok (), { unconnectedClient with conn := some ⟨false⟩ },
       { tr0 with dials := 1 }) ∧
    close unconnectedClient = unconnectedClient :=
  connect_idempotent_close_noop plainEnv unconnectedClient
    { unconnectedClient with conn := some ⟨false⟩ } tr0
    { tr0 with dials := 1 } rfl rfl

/-- C10: the privileged bind and the privileged rebind both run exactly when
`BindDN` and `BindPassword` are both non-empty; when either is empty the
bind calls observed are only the credential bind and the result is the same
successful one, so the privileged steps are skipped silently. -/
theorem authenticate_priv_bind_guard (env : Env) (lc : LDAPClient) (c : Conn)
    (username password : String) (e : Entry)
    (hconn : lc.conn = some c)
    (hbinds : ∀ n dn pw, env.bindResult n dn pw = Except.ok ())
    (hsearch : env.searchResult (authSearchRequest lc username) 0 =
      Except.ok ⟨[e]⟩) :
    (authenticate env lc username password tr0).1 =
      (true, some (userMap lc e), none) ∧
    (authenticate env lc username password tr0).2.2.binds =
      (if privConfigured lc then
        [(lc.bindDN, lc.bindPassword), (e.dn, password),
         (lc.bindDN, lc.bindPassword)]
       else [(e.dn, password)]) ∧
    (privConfigured lc = false ↔ lc.bindDN = "" ∨ lc.bindPassword = "") := by
  refine ⟨?_, ?_, ?_⟩
  · cases hp : privConfigured lc <;>
      simp [authenticate, connect, hconn, hp, connSearch, connBind, tr0,
        hbinds, hsearch]
  · cases hp : privConfigured lc <;>
      simp [authenticate, connect, hconn, hp, connSearch, connBind, tr0,
        hbinds, hsearch]
  · simp only [privConfigured, Bool.and_eq_false_iff, bne_eq_false_iff_eq]

/-- Witness for C10 at the privileged client with an all-succeeding
environment. -/
theorem authenticate_priv_bind_guard_witness :
    (authenticate plainEnv privClient "alice" "pw" tr0).1 =
      (true, some (userMap privClient aliceEntry), none) ∧
    (authenticate plainEnv privClient "alice" "pw" tr0).2.2.binds =
      (if privConfigured privClient then
        [(privClient.bindDN, privClient.bindPassword), (aliceEntry.dn, "pw"),
         (privClient.bindDN, privClient.bindPassword)]
       else [(aliceEntry.dn, "pw")]) ∧
    (privConfigured privClient = false ↔
      privClient.bindDN = "" ∨ privClient.bindPassword = "") :=
  authenticate_priv_bind_guard plainEnv privClient ⟨false⟩ "alice" "pw"
    aliceEntry rfl (fun _ _ _ => rfl) rfl

end LdapClient
